import Mathlib

/-
Verification of the Lidar-Neopixel RP2040 firmware core against its
natural-language specification.  The definitions below are a shallow
embedding of the C++ sources: machine integers become Nat/Int with
explicit wraparound where the code relies on it, the Arduino `millis()` /
`micros()` ambient clocks become explicit `now` parameters, and the
mutex-protected globals become explicit state records threaded through
each operation.
-/

namespace LidarFW

/-- Largest value of the 32-bit millisecond/microsecond counters
(`UINT32_MAX` in the sources). -/
def UINT32_MAX : Nat := 4294967295

/-- Wraparound-safe elapsed milliseconds, translated from
`globals.cpp::safeMillisElapsed`:
`(current >= start) ? (current - start) : (UINT32_MAX - start + current + 1)`. -/
def safeMillisElapsed (start current : Nat) : Nat :=
  if start ≤ current then current - start else UINT32_MAX - start + current + 1

/-- Wraparound-safe elapsed microseconds, translated from
`globals.cpp::safeMicrosElapsed` (same body as `safeMillisElapsed`). -/
def safeMicrosElapsed (start current : Nat) : Nat :=
  if start ≤ current then current - start else UINT32_MAX - start + current + 1

/-- One ranging measurement (`struct LidarFrame` in `globals.h`). -/
structure LidarFrame where
  distance : Nat
  strength : Nat
  temperature : Nat
  timestamp : Nat
  valid : Bool
  deriving DecidableEq, Repr

/-- Default-initialised frame (zeroed slot of the static buffers). -/
def LidarFrame.zero : LidarFrame :=
  { distance := 0, strength := 0, temperature := 0, timestamp := 0, valid := false }

/-! ### Trigger latch (`trigger.cpp::TriggerLatch::update`) -/

/-- The two latch states of `TriggerLatch` (`enum State { IDLE, LATCHED }`). -/
inductive LatchState
  | IDLE
  | LATCHED
  deriving DecidableEq, Repr

/-- Latch hold duration, `const uint32_t latch_duration_ms = 3000`. -/
def latch_duration_ms : Nat := 3000

/-- State of a `TriggerLatch` object (`trigger.h`). -/
structure TriggerLatch where
  state : LatchState
  latch_start_time : Nat
  deriving DecidableEq, Repr

/-- Translation of `TriggerLatch::update(bool trigger_event)`; `now` stands for
the `millis()` call at the head of the function.  Returns the updated object
together with the C++ return value `(state == LATCHED)`. -/
def TriggerLatch.update (l : TriggerLatch) (trigger_event : Bool) (now : Nat) :
    TriggerLatch × Bool :=
  let l' :=
    match l.state with
    | .IDLE =>
        if trigger_event then { state := .LATCHED, latch_start_time := now } else l
    | .LATCHED =>
        if latch_duration_ms ≤ safeMillisElapsed l.latch_start_time now then
          { l with state := .IDLE }
        else l
  (l', decide (l'.state = .LATCHED))

/-- Runs `TriggerLatch.update` over a sequence of calls, each a pair of the
boolean input and the `millis()` value at that call; returns the final state
and the list of outputs. -/
def TriggerLatch.run (l : TriggerLatch) : List (Bool × Nat) → TriggerLatch × List Bool
  | [] => (l, [])
  | c :: cs =>
      let r := l.update c.1 c.2
      let rest := r.1.run cs
      (rest.1, r.2 :: rest.2)

/-! ### Trigger debouncer (`trigger.cpp::TriggerDebouncer::update`) -/

/-- On-delay, `const uint32_t debounce_on_ms = 30`. -/
def debounce_on_ms : Nat := 30

/-- Off-delay, `const uint32_t debounce_off_ms = 50`. -/
def debounce_off_ms : Nat := 50

/-- Minimum pulse width, `const uint32_t min_pulse_ms = 20`. -/
def min_pulse_ms : Nat := 20

/-- State of a `TriggerDebouncer` object (`trigger.h`). -/
structure TriggerDebouncer where
  last_change_time : Nat
  last_state_time : Nat
  current_state : Bool
  last_raw_state : Bool
  deriving DecidableEq, Repr

/-- Translation of `TriggerDebouncer::update(bool raw_state)`; `now` stands for
the `millis()` call at the head of the function.  Returns the updated object
together with the C++ return value (the post-update `current_state`). -/
def TriggerDebouncer.update (d : TriggerDebouncer) (raw_state : Bool) (now : Nat) :
    TriggerDebouncer × Bool :=
  let d1 :=
    if raw_state ≠ d.last_raw_state then
      { d with last_change_time := now, last_raw_state := raw_state }
    else d
  if raw_state && !d1.current_state &&
      decide (debounce_on_ms ≤ safeMillisElapsed d1.last_change_time now) then
    ({ d1 with current_state := true, last_state_time := now }, true)
  else if !raw_state && d1.current_state &&
      decide (debounce_off_ms ≤ safeMillisElapsed d1.last_change_time now) &&
      decide (min_pulse_ms ≤ safeMillisElapsed d1.last_state_time now) then
    ({ d1 with current_state := false, last_state_time := now }, false)
  else (d1, d1.current_state)

/-! ### Shared frame queue (`globals.cpp::atomicBufferPush` / `atomicBufferPop`) -/

/-- Queue capacity, `#define FRAME_BUFFER_SIZE 32` (HIGH_SPEED_MODE build). -/
def FRAME_BUFFER_SIZE : Nat := 32

/-- Warning fill threshold, `#define BUFFER_WARNING_THRESHOLD 24`. -/
def BUFFER_WARNING_THRESHOLD : Nat := 24

/-- Critical fill threshold, `#define BUFFER_CRITICAL_THRESHOLD 28`. -/
def BUFFER_CRITICAL_THRESHOLD : Nat := 28

/-- The circular-buffer globals of `globals.cpp`: `frame_buffer`,
`buffer_head`, `buffer_tail`, `buffer_count`, together with the two
buffer-fill error flags managed via `safeSetErrorFlag`. -/
structure BufState where
  frame_buffer : Nat → LidarFrame
  buffer_head : Nat
  buffer_tail : Nat
  buffer_count : Nat
  warning_flag : Bool
  critical_flag : Bool

/-- The zero-initialised buffer globals at startup. -/
def BufState.init : BufState :=
  { frame_buffer := fun _ => LidarFrame.zero
    buffer_head := 0
    buffer_tail := 0
    buffer_count := 0
    warning_flag := false
    critical_flag := false }

/-- Translation of `atomicBufferPush`: under the buffer mutex, insert at head
when `buffer_count < FRAME_BUFFER_SIZE`, advance the head modulo the capacity
and increment the count; afterwards set or clear the warning/critical flags
exactly as the unlocked tail of the function does.  Returns the updated state
and the C++ return value. -/
def atomicBufferPush (s : BufState) (frame : LidarFrame) : BufState × Bool :=
  if s.buffer_count < FRAME_BUFFER_SIZE then
    let s' :=
      { s with
        frame_buffer := fun j => if j = s.buffer_head then frame else s.frame_buffer j
        buffer_head := (s.buffer_head + 1) % FRAME_BUFFER_SIZE
        buffer_count := s.buffer_count + 1 }
    if BUFFER_WARNING_THRESHOLD ≤ s'.buffer_count then
      if BUFFER_CRITICAL_THRESHOLD ≤ s'.buffer_count then
        ({ s' with warning_flag := true, critical_flag := true }, true)
      else
        ({ s' with warning_flag := true }, true)
    else
      ({ s' with warning_flag := false, critical_flag := false }, true)
  else
    (s, false)

/-- Translation of `atomicBufferPop`: under the buffer mutex, when
`buffer_count > 0` copy the slot at the tail, advance the tail modulo the
capacity and decrement the count, clearing the warning/critical flags when the
new count is below the warning threshold.  Returns the updated state and
`some frame` on success (`none` models the `false` return). -/
def atomicBufferPop (s : BufState) : BufState × Option LidarFrame :=
  if 0 < s.buffer_count then
    let frame := s.frame_buffer s.buffer_tail
    let s' :=
      { s with
        buffer_tail := (s.buffer_tail + 1) % FRAME_BUFFER_SIZE
        buffer_count := s.buffer_count - 1 }
    if s'.buffer_count < BUFFER_WARNING_THRESHOLD then
      ({ s' with warning_flag := false, critical_flag := false }, some frame)
    else
      (s', some frame)
  else
    (s, none)

/-- One queue operation: a push of a given frame, or a pop. -/
inductive BufOp
  | push (frame : LidarFrame)
  | pop

/-- Runs a sequence of queue operations on the concrete buffer state. -/
def runBufOps (s : BufState) : List BufOp → BufState
  | [] => s
  | .push f :: ops => runBufOps (atomicBufferPush s f).1 ops
  | .pop :: ops => runBufOps (atomicBufferPop s).1 ops

/-- Abstraction of the circular buffer to the list of queued frames,
oldest first (tail slot first). -/
def absQueue (s : BufState) : List LidarFrame :=
  (List.range s.buffer_count).map
    (fun i => s.frame_buffer ((s.buffer_tail + i) % FRAME_BUFFER_SIZE))

/-- Modelled from the spec ("bounded circular buffer ... FIFO order
preserved"): the ideal bounded FIFO on lists a push appends to the back when
there is room, a pop removes the front. -/
def specQueueStep (q : List LidarFrame) : BufOp → List LidarFrame
  | .push f => if q.length < FRAME_BUFFER_SIZE then q ++ [f] else q
  | .pop => q.tail

/-- The ideal bounded FIFO run over a sequence of operations from empty. -/
def specQueue (ops : List BufOp) : List LidarFrame :=
  ops.foldl specQueueStep []

/-- Structural invariant tying the circular-buffer indices together:
both indices are reduced modulo the capacity, the count never exceeds the
capacity, and the head sits `count` slots past the tail. -/
def BufInv (s : BufState) : Prop :=
  s.buffer_head < FRAME_BUFFER_SIZE ∧
  s.buffer_tail < FRAME_BUFFER_SIZE ∧
  s.buffer_count ≤ FRAME_BUFFER_SIZE ∧
  s.buffer_head = (s.buffer_tail + s.buffer_count) % FRAME_BUFFER_SIZE

/-! ### Trigger configuration (`storage.cpp` / `globals.h`) -/

/-- Minimum valid distance, `#define MIN_DISTANCE_CM 7`. -/
def MIN_DISTANCE_CM : Nat := 7

/-- Maximum valid distance, `#define MAX_DISTANCE_CM 1200`. -/
def MAX_DISTANCE_CM : Nat := 1200

/-- `struct LidarConfiguration` (`globals.h`): per-switch threshold arrays,
mode flags and the persisted checksum. -/
structure LidarConfiguration where
  distance_thresholds : Fin 8 → Nat
  velocity_min_thresholds : Fin 8 → Int
  velocity_max_thresholds : Fin 8 → Int
  trigger_rules : Fin 8 → Fin 4 → Nat
  use_velocity_trigger : Bool
  enable_debug : Bool
  checksum : Nat

/-- Translation of `storage.cpp::validateConfiguration`: iterate the eight
switch positions, returning `false` at the first distance threshold outside
`[MIN_DISTANCE_CM, MAX_DISTANCE_CM]` or the first index with
`velocity_min > velocity_max`; `true` when every index passes.  The early
returns make the loop equivalent to a conjunction over the indices. -/
def validateConfiguration (config : LidarConfiguration) : Bool :=
  (List.finRange 8).all (fun i =>
    !(config.distance_thresholds i < MIN_DISTANCE_CM ||
      MAX_DISTANCE_CM < config.distance_thresholds i) &&
    !(config.velocity_max_thresholds i < config.velocity_min_thresholds i))

/-- Outcome of the LittleFS interactions inside `saveConfiguration`,
abstracting the filesystem: whether the open for writing succeeds and whether
the write stores the full structure. -/
structure FsOutcome where
  openOk : Bool
  writeFull : Bool

/-- Translation of `storage.cpp::saveConfiguration`, with the global
`currentConfig` passed explicitly and the filesystem abstracted by
`FsOutcome` and by the byte-level checksum function `chk` (the source
computes it over the raw bytes of the struct).  Returns the C++ return
value, the resulting `currentConfig` and the configuration persisted to the
file (`none` when nothing durable was stored). -/
def saveConfiguration (chk : LidarConfiguration → Nat) (currentConfig : LidarConfiguration)
    (fs : FsOutcome) : Bool × LidarConfiguration × Option LidarConfiguration :=
  if !validateConfiguration currentConfig then
    (false, currentConfig, none)
  else
    let cfg' := { currentConfig with checksum := chk currentConfig }
    if !fs.openOk then
      (false, cfg', none)
    else if fs.writeFull then
      (true, cfg', some cfg')
    else
      (false, cfg', none)

/-! ### Adaptive velocity calculator (`calculations.cpp` / `calculations.h`) -/

/-- History capacity, `static constexpr int MAX_HISTORY = 15`. -/
def MAX_HISTORY : Nat := 15

/-- Distance deadband, `#define DISTANCE_DEADBAND_THRESHOLD_CM 1`. -/
def DISTANCE_DEADBAND_THRESHOLD_CM : Int := 1

/-- Velocity deadband, `#define VELOCITY_DEADBAND_THRESHOLD_CM_S 1.0f`. -/
def VELOCITY_DEADBAND_THRESHOLD_CM_S : ℚ := 1

/-- State of an `AdaptiveVelocityCalculator` object (`calculations.h`);
`history` is meaningful on indices `0 ≤ i < MAX_HISTORY`, newest first.
Velocities are modelled as exact rationals. -/
structure AdaptiveVelocityCalculator where
  history : Nat → LidarFrame
  count : Nat
  last_velocity : ℚ
  error_count : Nat
  last_movement_time : Nat

/-- The default-constructed calculator. -/
def AdaptiveVelocityCalculator.init : AdaptiveVelocityCalculator :=
  { history := fun _ => LidarFrame.zero
    count := 0
    last_velocity := 0
    error_count := 0
    last_movement_time := 0 }

/-- Translation of `AdaptiveVelocityCalculator::addFrame`: shift the history
down by one slot (evicting the oldest) and insert the frame at index 0;
`count` saturates at `MAX_HISTORY`. -/
def AdaptiveVelocityCalculator.addFrame (c : AdaptiveVelocityCalculator)
    (frame : LidarFrame) : AdaptiveVelocityCalculator :=
  { c with
    history := fun i => if i = 0 then frame else c.history (i - 1)
    count := if c.count < MAX_HISTORY then c.count + 1 else c.count }

/-- The offsets visited by the sampling loop `for (i = 2; i < count; i += 2)`
of `calculateVelocity` (`count ≤ 15`, so at most 2, 4, ..., 14). -/
def sampleOffsets (count : Nat) : List Nat :=
  ((List.range 7).map (fun k => 2 * k + 2)).takeWhile (fun i => decide (i < count))

/-- One iteration of the sampling loop at offset `i`: the pair is accepted
when the time delta lies strictly between 1000 and 50000 microseconds;
an accepted pair yields the instantaneous velocity
`dist_diff * 1000000 / time_diff` (cm/s) and its small-movement flag
`abs(dist_diff) <= DISTANCE_DEADBAND_THRESHOLD_CM`. -/
def sampleAt (c : AdaptiveVelocityCalculator) (i : Nat) : Option (ℚ × Bool) :=
  let time_diff := safeMicrosElapsed (c.history i).timestamp (c.history 0).timestamp
  if 1000 < time_diff ∧ time_diff < 50000 then
    let dist_diff : Int := (c.history 0).distance - (c.history i).distance
    some ((dist_diff : ℚ) * 1000000 / (time_diff : ℚ),
          decide (|dist_diff| ≤ DISTANCE_DEADBAND_THRESHOLD_CM))
  else
    none

/-- The full sampling loop of `calculateVelocity`: walks the offsets in order
and stops accepting once five samples are collected (`valid_velocities < 5`
in the loop condition). -/
def collectSamples (c : AdaptiveVelocityCalculator) : List (ℚ × Bool) :=
  (sampleOffsets c.count).foldl
    (fun acc i =>
      if acc.length < 5 then
        match sampleAt c i with
        | some s => acc ++ [s]
        | none => acc
      else acc)
    []

/-- Inner pass of the in-place exchange sort in `calculateVelocity`: threads
the element currently held at position `i` through the remainder of the
array, swapping whenever the held element is the larger one
(`if (velocities[i] > velocities[j]) swap`). -/
def selectPass (x : ℚ) : List ℚ → ℚ × List ℚ
  | [] => (x, [])
  | y :: ys =>
      if y < x then
        let r := selectPass y ys
        (r.1, x :: r.2)
      else
        let r := selectPass x ys
        (r.1, y :: r.2)

/-- Fuelled outer loop of the exchange sort. -/
def exchangeSortAux : Nat → List ℚ → List ℚ
  | 0, l => l
  | _ + 1, [] => []
  | n + 1, x :: xs =>
      let r := selectPass x xs
      r.1 :: exchangeSortAux n r.2

/-- The double selection loop of `calculateVelocity`, as a sort on lists. -/
def exchangeSort (l : List ℚ) : List ℚ :=
  exchangeSortAux l.length l

/-- The median selection of `calculateVelocity`: a single sample is returned
directly, otherwise the exchange-sorted array is indexed at
`valid_velocities / 2`. -/
def medianVelocity (vs : List ℚ) : ℚ :=
  if vs.length = 1 then vs.headI else (exchangeSort vs).getD (vs.length / 2) 0

/-- Result of `calculateVelocity`: the updated object, the returned velocity
and the new value of `ERROR_FLAG_VELOCITY_CALC_ERROR`. -/
structure VelocityResult where
  vcalc : AdaptiveVelocityCalculator
  velocity : ℚ
  error_flag : Bool

/-- Translation of `AdaptiveVelocityCalculator::calculateVelocity`; `now`
stands for the `millis()` calls and `error_flag` for the incoming value of
`ERROR_FLAG_VELOCITY_CALC_ERROR`, which `safeSetErrorFlag` overwrites with
the given boolean. -/
def AdaptiveVelocityCalculator.calculateVelocity (c : AdaptiveVelocityCalculator)
    (now : Nat) (error_flag : Bool) : VelocityResult :=
  if c.count < 5 then
    { vcalc := c, velocity := 0, error_flag := error_flag }
  else
    let samples := collectSamples c
    let valid_velocities := samples.length
    let small_movement_count := (samples.filter (fun s => s.2)).length
    if valid_velocities = 0 then
      { vcalc := { c with error_count := c.error_count + 1 }
        velocity := c.last_velocity
        error_flag := decide (10 < c.error_count + 1) }
    else if valid_velocities / 2 + 1 ≤ small_movement_count then
      { vcalc := { c with last_velocity := 0, last_movement_time := now, error_count := 0 }
        velocity := 0
        error_flag := false }
    else
      let median_velocity := medianVelocity (samples.map (fun s => s.1))
      let snapped :=
        if |median_velocity| ≤ VELOCITY_DEADBAND_THRESHOLD_CM_S then 0 else median_velocity
      { vcalc := { c with last_velocity := snapped, last_movement_time := now, error_count := 0 }
        velocity := snapped
        error_flag := false }

/-! ### Frame checksum (`core0_handling.cpp::processLidarSerial`) -/

/-- The checksum accumulation over the first eight bytes of a completed
9-byte frame: a `uint8_t` sum, wrapping modulo 256 at each addition. -/
def lidarFrameChecksum (bytes : List Nat) : Nat :=
  (bytes.take 8).foldl (fun acc b => (acc + b) % 256) 0

/-- The acceptance test `checksum == frame_data[8]` on a completed frame. -/
def frameChecksumOk (bytes : List Nat) : Bool :=
  lidarFrameChecksum bytes == bytes.getD 8 0

/-! ### Core-1 frame processing (`core1_handling.cpp` / `part_000`) -/

/-- The per-frame cap, `const int MAX_FRAMES_PER_CYCLE = 5` in `part_000`. -/
def MAX_FRAMES_PER_CYCLE : Nat := 5

/-- The core-1 processing state threaded through `processIncomingFrames`:
the static velocity calculator, the global debouncer and latch, the static
`last_trigger_state`, and the velocity error flag. -/
structure Core1Pipeline where
  velocity_calc : AdaptiveVelocityCalculator
  trigger_debouncer : TriggerDebouncer
  trigger_latch : TriggerLatch
  last_trigger_state : Bool
  velocity_error_flag : Bool

/-- Externally visible outcome of processing one frame. -/
structure FrameOutputs where
  velocity : ℚ
  raw_trigger : Bool
  debounced_trigger : Bool
  final_trigger : Bool
  pin_active_low : Bool
  flash : Bool

/-- Per-frame body of `processIncomingFrames`: add the frame to the velocity
history, compute the velocity, evaluate the distance and velocity thresholds
at the active switch position, debounce, latch, drive the output pin
(active low iff the final trigger holds) and fire the one-shot flash on the
rising edge of the final trigger. -/
def processOneFrame (cfg : LidarConfiguration) (switch_code : Fin 8)
    (p : Core1Pipeline) (frame : LidarFrame) (now : Nat) :
    Core1Pipeline × FrameOutputs :=
  let calc1 := p.velocity_calc.addFrame frame
  let vres := calc1.calculateVelocity now p.velocity_error_flag
  let calculated_velocity := vres.velocity
  let distance_ok := decide (frame.distance ≤ cfg.distance_thresholds switch_code)
  let velocity_ok := !cfg.use_velocity_trigger ||
    (decide ((cfg.velocity_min_thresholds switch_code : ℚ) ≤ calculated_velocity) &&
     decide (calculated_velocity ≤ (cfg.velocity_max_thresholds switch_code : ℚ)))
  let raw_trigger := distance_ok && velocity_ok
  let deb := p.trigger_debouncer.update raw_trigger now
  let lat := p.trigger_latch.update deb.2 now
  let final_trigger := lat.2
  ({ velocity_calc := vres.vcalc
     trigger_debouncer := deb.1
     trigger_latch := lat.1
     last_trigger_state := final_trigger
     velocity_error_flag := vres.error_flag },
   { velocity := calculated_velocity
     raw_trigger := raw_trigger
     debounced_trigger := deb.2
     final_trigger := final_trigger
     pin_active_low := final_trigger
     flash := final_trigger && !p.last_trigger_state })

/-- Accounting of one `processIncomingFrames` pass: how many frames left the
queue, how many of them went through the processing body, and the final
states. -/
structure DrainResult where
  removed : Nat
  processed : Nat
  buf : BufState
  pipe : Core1Pipeline

/-- The drain loop of `processIncomingFrames` in `part_000`:
`while (atomicBufferPop(frame) && frames_this_cycle < MAX_FRAMES_PER_CYCLE)`.
The pop is evaluated first; `budget` stands for
`MAX_FRAMES_PER_CYCLE - frames_this_cycle`.  A successful pop whose guard
`frames_this_cycle < MAX_FRAMES_PER_CYCLE` then fails leaves the loop with
that frame removed from the queue but never processed. -/
def drainFrames (cfg : LidarConfiguration) (switch_code : Fin 8) (now : Nat) :
    Nat → BufState → Core1Pipeline → DrainResult
  | budget, s, p =>
      match atomicBufferPop s with
      | (_, none) => { removed := 0, processed := 0, buf := s, pipe := p }
      | (s', some frame) =>
          match budget with
          | 0 => { removed := 1, processed := 0, buf := s', pipe := p }
          | b + 1 =>
              let p' := (processOneFrame cfg switch_code p frame now).1
              let r := drainFrames cfg switch_code now b s' p'
              { removed := r.removed + 1, processed := r.processed + 1
                buf := r.buf, pipe := r.pipe }

/-- One RUNNING-mode invocation of `processIncomingFrames` (`part_000`),
starting with `frames_this_cycle = 0`. -/
def processIncomingFrames (cfg : LidarConfiguration) (switch_code : Fin 8)
    (now : Nat) (s : BufState) (p : Core1Pipeline) : DrainResult :=
  drainFrames cfg switch_code now MAX_FRAMES_PER_CYCLE s p

/-! ### Communication-loss recovery (`core0_handling.cpp`) -/

/-- Recovery level constants of `globals.h`. -/
def RECOVERY_LEVEL_BUFFER_FLUSH : Nat := 1

/-- Recovery level 2, `#define RECOVERY_LEVEL_SOFT_RESET 2`. -/
def RECOVERY_LEVEL_SOFT_RESET : Nat := 2

/-- Recovery level 3, `#define RECOVERY_LEVEL_FULL_REINIT 3`. -/
def RECOVERY_LEVEL_FULL_REINIT : Nat := 3

/-- The runtime-configurable recovery parameters (`globals_config.h`). -/
structure RuntimeGlobals where
  max_recovery_attempts : Nat
  recovery_attempt_delay_ms : Nat

/-- Factory defaults `MAX_RECOVERY_ATTEMPTS 3` and
`RECOVERY_ATTEMPT_DELAY_MS 5000` (`loadDefaultGlobals`). -/
def defaultRuntimeGlobals : RuntimeGlobals :=
  { max_recovery_attempts := 3, recovery_attempt_delay_ms := 5000 }

/-- The externally visible remediation performed by one recovery call. -/
inductive RecoveryAction
  | idle
  | bufferFlush
  | softReset
  | fullReinit
  deriving DecidableEq, Repr

/-- The mutable state touched by `attemptRecovery` and by the core-0 health
monitor: the shared recovery counter, the static rate-limit stamp, the frame
queue, the pending sensor input bytes, whether the acquisition state machine
was restarted (`core0_state = CORE0_STARTUP`), the communication-timeout
error flag, and the health-monitor timestamps. -/
structure RecoveryState where
  recovery_attempts : Nat
  last_recovery_attempt : Nat
  buf : BufState
  serial_pending : List Nat
  core0_restarted : Bool
  comm_timeout_flag : Bool
  last_health_check : Nat
  last_frame_time : Nat

/-- Translation of `core0_handling.cpp::attemptRecovery`.  Returns the C++
return value, the updated state and the action taken.  Note that the
recovery counter is incremented before the level switch, that only the
buffer-flush and soft-reset branches record `last_recovery_attempt`, and
that the full-reinit branch resets the counter to zero (and returns `false`)
exactly when the incremented counter exceeds the configured maximum. -/
def attemptRecovery (rg : RuntimeGlobals) (recovery_level : Nat)
    (s : RecoveryState) (now : Nat) : Bool × RecoveryState × RecoveryAction :=
  if safeMillisElapsed s.last_recovery_attempt now < rg.recovery_attempt_delay_ms then
    (false, s, .idle)
  else
    let s1 := { s with recovery_attempts := s.recovery_attempts + 1 }
    if recovery_level = RECOVERY_LEVEL_BUFFER_FLUSH then
      (true,
       { s1 with
         buf := { s1.buf with buffer_head := 0, buffer_tail := 0, buffer_count := 0 }
         serial_pending := []
         last_recovery_attempt := now },
       .bufferFlush)
    else if recovery_level = RECOVERY_LEVEL_SOFT_RESET then
      (true, { s1 with last_recovery_attempt := now }, .softReset)
    else if recovery_level = RECOVERY_LEVEL_FULL_REINIT then
      if rg.max_recovery_attempts < s1.recovery_attempts then
        (false, { s1 with recovery_attempts := 0 }, .idle)
      else
        (true, s1, .fullReinit)
    else
      (false, s1, .idle)

/-- Translation of the communication health monitor inside
`processCore0StateMachine` (CORE0_RUNNING case): skipped while configuration
mode is active, polled at most once per 5000 ms, and escalating by
`recovery_attempts` when the time since the last good frame exceeds 2000 ms.
On a successful full reinitialization the acquisition state machine is sent
back to `CORE0_STARTUP`. -/
def healthMonitorStep (rg : RuntimeGlobals) (config_active : Bool)
    (s : RecoveryState) (now : Nat) : RecoveryState × RecoveryAction :=
  if config_active then (s, .idle)
  else if 5000 < safeMillisElapsed s.last_health_check now then
    let comm_timeout := safeMillisElapsed s.last_frame_time now
    let after :=
      if 2000 < comm_timeout then
        if s.recovery_attempts = 0 then
          let r := attemptRecovery rg RECOVERY_LEVEL_BUFFER_FLUSH s now
          ({ r.2.1 with comm_timeout_flag := true }, r.2.2)
        else if s.recovery_attempts = 1 then
          let r := attemptRecovery rg RECOVERY_LEVEL_SOFT_RESET s now
          ({ r.2.1 with comm_timeout_flag := true }, r.2.2)
        else
          let r := attemptRecovery rg RECOVERY_LEVEL_FULL_REINIT s now
          if r.1 then
            ({ r.2.1 with core0_restarted := true, comm_timeout_flag := true }, r.2.2)
          else
            (r.2.1, r.2.2)
      else (s, .idle)
    ({ after.1 with last_health_check := now }, after.2)
  else (s, .idle)

/-! ### Concrete fixtures used to instantiate the theorems -/

/-- Translation of `storage.cpp::loadDefaultConfig`: the factory default
trigger configuration. -/
def defaultConfig : LidarConfiguration :=
  { distance_thresholds := ![50, 100, 200, 300, 400, 500, 600, 700]
    velocity_min_thresholds := fun _ => -2200
    velocity_max_thresholds := fun _ => -250
    trigger_rules := fun _ _ => 0
    use_velocity_trigger := true
    enable_debug := false
    checksum := 0 }

/-- A configuration whose distance thresholds all sit below
`MIN_DISTANCE_CM`, used to exercise the validation failure path. -/
def invalidTestConfig : LidarConfiguration :=
  { distance_thresholds := fun _ => 0
    velocity_min_thresholds := fun _ => 0
    velocity_max_thresholds := fun _ => 0
    trigger_rules := fun _ _ => 0
    use_velocity_trigger := false
    enable_debug := false
    checksum := 0 }

/-- The core-1 pipeline objects as default-constructed at startup
(`trigger.h` member initialisers and the static locals of
`processIncomingFrames`). -/
def Core1Pipeline.init : Core1Pipeline :=
  { velocity_calc := .init
    trigger_debouncer := ⟨0, 0, false, false⟩
    trigger_latch := ⟨.IDLE, 0⟩
    last_trigger_state := false
    velocity_error_flag := false }

/-- A calculator whose five newest history entries describe a stationary
target: equal distances with usable time deltas at offsets 2 and 4. -/
def stationaryCalc : AdaptiveVelocityCalculator :=
  { history := fun i =>
      if i = 0 then ⟨100, 400, 0, 10000, true⟩
      else if i = 2 then ⟨100, 400, 0, 5000, true⟩
      else if i = 4 then ⟨100, 400, 0, 0, true⟩
      else LidarFrame.zero
    count := 5
    last_velocity := 7
    error_count := 3
    last_movement_time := 0 }

/-! ### Helper lemmas -/

/-- Elapsed time from an instant to itself is zero. -/
theorem safeMillisElapsed_self (t : Nat) : safeMillisElapsed t t = 0 := by
  simp [safeMillisElapsed]

/-- While latched and strictly inside the hold window, an update call leaves
the latch unchanged and returns true, whatever the input. -/
theorem latch_update_inside_window (t0 : Nat) (e : Bool) (now : Nat)
    (h : safeMillisElapsed t0 now < latch_duration_ms) :
    TriggerLatch.update ⟨.LATCHED, t0⟩ e now = (⟨.LATCHED, t0⟩, true) := by
  simp only [TriggerLatch.update]
  rw [if_neg (by omega)]
  rfl

/-- A latched latch holds through any sequence of calls that all fall strictly
inside the hold window: every output is true and the state is unchanged. -/
theorem latch_run_inside_window (t0 : Nat) :
    ∀ calls : List (Bool × Nat),
      (∀ c ∈ calls, safeMillisElapsed t0 c.2 < latch_duration_ms) →
      TriggerLatch.run ⟨.LATCHED, t0⟩ calls =
        (⟨.LATCHED, t0⟩, List.replicate calls.length true) := by
  intro calls
  induction calls with
  | nil => intro _; rfl
  | cons c cs ih =>
      intro h
      have hc := h c (List.mem_cons_self c cs)
      have hcs := ih (fun x hx => h x (List.mem_cons_of_mem c hx))
      simp only [TriggerLatch.run, latch_update_inside_window t0 c.1 c.2 hc, hcs,
        List.length_cons, List.replicate_succ]

/-- C1: once `TriggerLatch.update` returns true it has entered LATCHED with
start time equal to that call's clock; every later call whose elapsed time
since the start is strictly below 3000 ms returns true regardless of its
input and leaves the latch state unchanged; a call at elapsed time at least
3000 ms sends the latch back to IDLE and returns false; and in general the
returned value is true exactly when the post-call state is LATCHED. -/
theorem latch_three_second_hold (t0 : Nat) (calls : List (Bool × Nat))
    (h : ∀ c ∈ calls, safeMillisElapsed t0 c.2 < latch_duration_ms) :
    (∀ b ∈ (TriggerLatch.run ⟨.LATCHED, t0⟩ calls).2, b = true) ∧
    (TriggerLatch.run ⟨.LATCHED, t0⟩ calls).1 = ⟨.LATCHED, t0⟩ ∧
    (∀ e now, latch_duration_ms ≤ safeMillisElapsed t0 now →
      TriggerLatch.update ⟨.LATCHED, t0⟩ e now = (⟨.IDLE, t0⟩, false)) ∧
    (∀ t e now, (TriggerLatch.update ⟨.IDLE, t⟩ e now).2 = true →
      (TriggerLatch.update ⟨.IDLE, t⟩ e now).1 = ⟨.LATCHED, now⟩) ∧
    (∀ l : TriggerLatch, ∀ e now,
      (l.update e now).2 = true ↔ (l.update e now).1.state = .LATCHED) := by
  refine ⟨?_, ?_, ?_, ?_, ?_⟩
  · rw [latch_run_inside_window t0 calls h]
    intro b hb
    exact List.eq_of_mem_replicate hb
  · rw [latch_run_inside_window t0 calls h]
  · intro e now hnow
    simp only [TriggerLatch.update]
    rw [if_pos hnow]
    rfl
  · intro t e now hout
    cases e with
    | true => rfl
    | false => simp [TriggerLatch.update] at hout
  · intro l e now
    simp [TriggerLatch.update]

/-- Concrete instance of `latch_three_second_hold`: a latch started at time 0
holds through calls at 1 ms and 2999 ms. -/
theorem latch_three_second_hold_witness :
    (∀ b ∈ (TriggerLatch.run ⟨.LATCHED, 0⟩ [(false, 1), (true, 2999)]).2, b = true) ∧
    (TriggerLatch.run ⟨.LATCHED, 0⟩ [(false, 1), (true, 2999)]).1 = ⟨.LATCHED, 0⟩ ∧
    (∀ e now, latch_duration_ms ≤ safeMillisElapsed 0 now →
      TriggerLatch.update ⟨.LATCHED, 0⟩ e now = (⟨.IDLE, 0⟩, false)) ∧
    (∀ t e now, (TriggerLatch.update ⟨.IDLE, t⟩ e now).2 = true →
      (TriggerLatch.update ⟨.IDLE, t⟩ e now).1 = ⟨.LATCHED, now⟩) ∧
    (∀ l : TriggerLatch, ∀ e now,
      (l.update e now).2 = true ↔ (l.update e now).1.state = .LATCHED) :=
  latch_three_second_hold 0 [(false, 1), (true, 2999)] (by decide)

/-- C2: the debouncer's stable output flips from false to true only when the
raw input is true, unchanged from the previous call (so the recorded
last-change time is the time of the last raw change), and at least 30 ms have
elapsed since that change; it flips from true to false only when raw is
false and unchanged, at least 50 ms have elapsed since the last raw change,
and at least 20 ms have elapsed since the output last became stable; both
conditions are also sufficient. -/
theorem debouncer_flip_conditions (d : TriggerDebouncer) (raw : Bool) (now : Nat) :
    (((d.update raw now).1.current_state = true ∧ d.current_state = false) ↔
      (raw = true ∧ d.last_raw_state = true ∧ d.current_state = false ∧
       debounce_on_ms ≤ safeMillisElapsed d.last_change_time now)) ∧
    (((d.update raw now).1.current_state = false ∧ d.current_state = true) ↔
      (raw = false ∧ d.last_raw_state = false ∧ d.current_state = true ∧
       debounce_off_ms ≤ safeMillisElapsed d.last_change_time now ∧
       min_pulse_ms ≤ safeMillisElapsed d.last_state_time now)) := by
  cases raw <;> cases hl : d.last_raw_state <;> cases hc : d.current_state <;>
    simp [TriggerDebouncer.update, hl, hc, safeMillisElapsed_self,
      debounce_on_ms, debounce_off_ms, min_pulse_ms] <;>
    (try split_ifs <;> simp_all)

/-- The abstract queue has exactly `buffer_count` entries. -/
theorem absQueue_length (s : BufState) : (absQueue s).length = s.buffer_count := by
  simp [absQueue]

/-- The zero-initialised buffer abstracts to the empty queue. -/
theorem absQueue_init : absQueue BufState.init = [] := by
  simp [absQueue, BufState.init]

/-- The zero-initialised buffer satisfies the structural invariant. -/
theorem bufInv_init : BufInv BufState.init := by
  refine ⟨?_, ?_, ?_, ?_⟩ <;> simp [BufState.init, BufInv, FRAME_BUFFER_SIZE]

/-- A push into a non-full buffer succeeds, appends the frame to the back of
the abstract queue, and preserves the structural invariant. -/
theorem atomicBufferPush_sim (s : BufState) (f : LidarFrame) (hinv : BufInv s)
    (hroom : s.buffer_count < FRAME_BUFFER_SIZE) :
    (atomicBufferPush s f).2 = true ∧
    BufInv (atomicBufferPush s f).1 ∧
    absQueue (atomicBufferPush s f).1 = absQueue s ++ [f] := by
  obtain ⟨hh, ht, hc, hrel⟩ := hinv
  simp only [FRAME_BUFFER_SIZE] at hh ht hc hrel hroom
  unfold atomicBufferPush
  rw [if_pos (by simpa [FRAME_BUFFER_SIZE] using hroom)]
  dsimp only
  have hinv' :
      ((s.buffer_head + 1) % FRAME_BUFFER_SIZE < FRAME_BUFFER_SIZE ∧
        s.buffer_tail < FRAME_BUFFER_SIZE ∧
        s.buffer_count + 1 ≤ FRAME_BUFFER_SIZE ∧
        (s.buffer_head + 1) % FRAME_BUFFER_SIZE =
          (s.buffer_tail + (s.buffer_count + 1)) % FRAME_BUFFER_SIZE) := by
    simp only [FRAME_BUFFER_SIZE]
    omega
  have habs :
      ((List.range (s.buffer_count + 1)).map
        (fun i =>
          (fun j => if j = s.buffer_head then f else s.frame_buffer j)
            ((s.buffer_tail + i) % FRAME_BUFFER_SIZE))) =
      absQueue s ++ [f] := by
    rw [List.range_succ, List.map_append]
    congr 1
    · apply List.map_congr_left
      intro i hi
      have hi' : i < s.buffer_count := List.mem_range.mp hi
      have hne : (s.buffer_tail + i) % FRAME_BUFFER_SIZE ≠ s.buffer_head := by
        simp only [FRAME_BUFFER_SIZE]
        omega
      simp [hne]
    · have heq : (s.buffer_tail + s.buffer_count) % FRAME_BUFFER_SIZE = s.buffer_head := by
        simp only [FRAME_BUFFER_SIZE]
        omega
      simp [heq]
  split_ifs <;>
    exact ⟨rfl, hinv', habs⟩

/-- A push into a full buffer fails and leaves everything unchanged. -/
theorem atomicBufferPush_full (s : BufState) (f : LidarFrame)
    (hfull : ¬ s.buffer_count < FRAME_BUFFER_SIZE) :
    atomicBufferPush s f = (s, false) := by
  unfold atomicBufferPush
  rw [if_neg hfull]

/-- A pop from a non-empty buffer returns the slot at the tail — the front of
the abstract queue — removes it, and preserves the structural invariant. -/
theorem atomicBufferPop_sim (s : BufState) (hinv : BufInv s)
    (hpos : 0 < s.buffer_count) :
    (atomicBufferPop s).2 = some (s.frame_buffer s.buffer_tail) ∧
    BufInv (atomicBufferPop s).1 ∧
    absQueue s = s.frame_buffer s.buffer_tail :: absQueue (atomicBufferPop s).1 := by
  obtain ⟨hh, ht, hc, hrel⟩ := hinv
  simp only [FRAME_BUFFER_SIZE] at hh ht hc hrel
  unfold atomicBufferPop
  rw [if_pos hpos]
  dsimp only
  have hinv' :
      s.buffer_head < FRAME_BUFFER_SIZE ∧
      (s.buffer_tail + 1) % FRAME_BUFFER_SIZE < FRAME_BUFFER_SIZE ∧
      s.buffer_count - 1 ≤ FRAME_BUFFER_SIZE ∧
      s.buffer_head = ((s.buffer_tail + 1) % FRAME_BUFFER_SIZE + (s.buffer_count - 1)) %
        FRAME_BUFFER_SIZE := by
    simp only [FRAME_BUFFER_SIZE]
    omega
  have habs :
      absQueue s = s.frame_buffer s.buffer_tail ::
        ((List.range (s.buffer_count - 1)).map
          (fun i => s.frame_buffer (((s.buffer_tail + 1) % FRAME_BUFFER_SIZE + i) %
            FRAME_BUFFER_SIZE))) := by
    unfold absQueue
    obtain ⟨m, hm⟩ : ∃ m, s.buffer_count = m + 1 := ⟨s.buffer_count - 1, by omega⟩
    rw [hm]
    rw [List.range_succ_eq_map]
    simp only [List.map_cons, List.map_map]
    have h0 : (s.buffer_tail + 0) % FRAME_BUFFER_SIZE = s.buffer_tail := by
      simp only [FRAME_BUFFER_SIZE]
      omega
    rw [h0]
    congr 1
    · simp only [hm, Nat.add_sub_cancel]
      apply List.map_congr_left
      intro i hi
      have hi' : i < m := List.mem_range.mp hi
      simp only [Function.comp]
      congr 1
      simp only [FRAME_BUFFER_SIZE]
      omega
  split_ifs <;>
    exact ⟨rfl, hinv', habs⟩

/-- A pop from an empty buffer fails and leaves everything unchanged. -/
theorem atomicBufferPop_empty (s : BufState) (h : ¬ 0 < s.buffer_count) :
    atomicBufferPop s = (s, none) := by
  unfold atomicBufferPop
  rw [if_neg h]

/-- Simulation: running any operation sequence on the circular buffer keeps
the structural invariant and tracks the ideal bounded FIFO on lists. -/
theorem runBufOps_sim :
    ∀ (ops : List BufOp) (s : BufState), BufInv s →
      BufInv (runBufOps s ops) ∧
      absQueue (runBufOps s ops) = ops.foldl specQueueStep (absQueue s) := by
  intro ops
  induction ops with
  | nil => exact fun s h => ⟨h, rfl⟩
  | cons op ops ih =>
      intro s hinv
      cases op with
      | push f =>
          by_cases hroom : s.buffer_count < FRAME_BUFFER_SIZE
          · obtain ⟨_, hinv', habs⟩ := atomicBufferPush_sim s f hinv hroom
            obtain ⟨hiv, hab⟩ := ih _ hinv'
            refine ⟨by simpa only [runBufOps] using hiv, ?_⟩
            simp only [runBufOps, List.foldl_cons, specQueueStep]
            rw [if_pos (by rw [absQueue_length]; exact hroom), hab, habs]
          · have heq := atomicBufferPush_full s f hroom
            obtain ⟨hiv, hab⟩ := ih s hinv
            refine ⟨by simpa only [runBufOps, heq] using hiv, ?_⟩
            simp only [runBufOps, heq, List.foldl_cons, specQueueStep]
            rw [if_neg (by rw [absQueue_length]; exact hroom)]
            exact hab
      | pop =>
          by_cases hpos : 0 < s.buffer_count
          · obtain ⟨_, hinv', habs⟩ := atomicBufferPop_sim s hinv hpos
            obtain ⟨hiv, hab⟩ := ih _ hinv'
            refine ⟨by simpa only [runBufOps] using hiv, ?_⟩
            simp only [runBufOps, List.foldl_cons, specQueueStep]
            rw [hab, habs]
            rfl
          · have heq := atomicBufferPop_empty s hpos
            obtain ⟨hiv, hab⟩ := ih s hinv
            have hnil : absQueue s = [] := by
              have := absQueue_length s
              exact List.eq_nil_of_length_eq_zero (by omega)
            refine ⟨by simpa only [runBufOps, heq] using hiv, ?_⟩
            simp only [runBufOps, heq, List.foldl_cons, specQueueStep, hnil]
            simpa [hnil] using hab


/-- A pop from any invariant-satisfying buffer returns exactly the front of
the abstract queue (the oldest frame), or nothing when the queue is empty. -/
theorem atomicBufferPop_eq_head (s : BufState) (hinv : BufInv s) :
    (atomicBufferPop s).2 = (absQueue s).head? := by
  by_cases hpos : 0 < s.buffer_count
  · obtain ⟨h1, _, h3⟩ := atomicBufferPop_sim s hinv hpos
    rw [h1, h3]
    rfl
  · rw [atomicBufferPop_empty s hpos]
    have hnil : absQueue s = [] := by
      have := absQueue_length s
      exact List.eq_nil_of_length_eq_zero (by omega)
    simp [hnil]

/-- C3: for every sequence of push/pop operations from the empty queue, the
count stays within 0..FRAME_BUFFER_SIZE (= 32), the circular buffer's
contents coincide with the ideal bounded FIFO on lists (so FIFO order is
preserved across pops that empty the queue), and a pop always returns that
FIFO's front — the oldest frame still queued. -/
theorem queue_invariant_fifo (ops : List BufOp) :
    (runBufOps BufState.init ops).buffer_count ≤ FRAME_BUFFER_SIZE ∧
    absQueue (runBufOps BufState.init ops) = specQueue ops ∧
    (atomicBufferPop (runBufOps BufState.init ops)).2 = (specQueue ops).head? := by
  obtain ⟨hinv, habs⟩ := runBufOps_sim ops BufState.init bufInv_init
  refine ⟨hinv.2.2.1, ?_, ?_⟩
  · rw [habs, absQueue_init]
    rfl
  · rw [atomicBufferPop_eq_head _ hinv, habs, absQueue_init]
    rfl

/-- Folding the byte-wise modulo-256 accumulation from an in-range
accumulator equals the plain sum modulo 256. -/
theorem foldl_mod256 (l : List Nat) :
    ∀ a, a < 256 → l.foldl (fun acc b => (acc + b) % 256) a = (a + l.sum) % 256 := by
  induction l with
  | nil =>
      intro a ha
      simp [Nat.mod_eq_of_lt ha]
  | cons b t ih =>
      intro a ha
      simp only [List.foldl_cons, List.sum_cons]
      rw [ih _ (Nat.mod_lt _ (by norm_num))]
      omega

/-- The frame checksum is the sum of the first eight bytes modulo 256. -/
theorem lidarFrameChecksum_eq (l : List Nat) :
    lidarFrameChecksum l = (l.take 8).sum % 256 := by
  unfold lidarFrameChecksum
  rw [foldl_mod256 _ 0 (by norm_num), Nat.zero_add]

/-- C5: a completed 9-byte frame passes the checksum test exactly when the
sum of its first eight bytes modulo 256 equals its ninth byte; consequently
any corruption of bytes 0-7 that changes that sum modulo 256 while leaving
byte 8 unchanged is always rejected. -/
theorem checksum_accept_iff (bytes : List Nat) (h9 : bytes.length = 9)
    (hb : ∀ b ∈ bytes, b < 256) :
    (frameChecksumOk bytes = true ↔ (bytes.take 8).sum % 256 = bytes.getD 8 0) ∧
    (∀ bytes' : List Nat, bytes'.length = 9 →
      bytes'.getD 8 0 = bytes.getD 8 0 →
      (bytes'.take 8).sum % 256 ≠ (bytes.take 8).sum % 256 →
      frameChecksumOk bytes = true → frameChecksumOk bytes' = false) := by
  constructor
  · simp [frameChecksumOk, lidarFrameChecksum_eq]
  · intro bytes' _ hsame hdiff hok
    have h1 : (bytes.take 8).sum % 256 = bytes.getD 8 0 := by
      simpa [frameChecksumOk, lidarFrameChecksum_eq] using hok
    simp only [frameChecksumOk, lidarFrameChecksum_eq, beq_eq_false_iff_ne, ne_eq]
    rw [hsame, ← h1]
    exact hdiff

/-- Concrete instance of `checksum_accept_iff` on an accepted frame together
with a corrupted copy (byte 2 bumped by one) that is rejected. -/
theorem checksum_accept_iff_witness :
    (frameChecksumOk [89, 89, 10, 0, 100, 0, 30, 0, 62] = true ↔
      ([89, 89, 10, 0, 100, 0, 30, 0, 62].take 8).sum % 256 =
        [89, 89, 10, 0, 100, 0, 30, 0, 62].getD 8 0) ∧
    frameChecksumOk [89, 89, 11, 0, 100, 0, 30, 0, 62] = false :=
  ⟨(checksum_accept_iff [89, 89, 10, 0, 100, 0, 30, 0, 62] (by decide) (by decide)).1,
   (checksum_accept_iff [89, 89, 10, 0, 100, 0, 30, 0, 62] (by decide) (by decide)).2
     [89, 89, 11, 0, 100, 0, 30, 0, 62] (by decide) (by decide) (by decide) (by decide)⟩

/-- C8: any configuration with an inverted velocity band at some index or a
distance threshold outside `[MIN_DISTANCE_CM, MAX_DISTANCE_CM]` fails
`validateConfiguration`, and `saveConfiguration` then returns false,
persists nothing, and leaves the active configuration unchanged. -/
theorem invalid_config_rejected (config : LidarConfiguration)
    (hbad :
      (∃ k, config.velocity_max_thresholds k < config.velocity_min_thresholds k) ∨
      (∃ k, config.distance_thresholds k < MIN_DISTANCE_CM ∨
            MAX_DISTANCE_CM < config.distance_thresholds k)) :
    validateConfiguration config = false ∧
    (∀ (chk : LidarConfiguration → Nat) (fs : FsOutcome),
      saveConfiguration chk config fs = (false, config, none)) := by
  have hval : validateConfiguration config = false := by
    unfold validateConfiguration
    rw [List.all_eq_false]
    obtain ⟨k, hk⟩ | ⟨k, hk⟩ := hbad
    · exact ⟨k, List.mem_finRange k, by simp [hk]⟩
    · refine ⟨k, List.mem_finRange k, ?_⟩
      rcases hk with hk | hk <;> simp [hk]
  refine ⟨hval, fun chk fs => ?_⟩
  unfold saveConfiguration
  rw [hval]
  rfl

/-- Concrete instance of `invalid_config_rejected` at a configuration whose
distance thresholds are all zero. -/
theorem invalid_config_rejected_witness :
    validateConfiguration invalidTestConfig = false ∧
    (∀ (chk : LidarConfiguration → Nat) (fs : FsOutcome),
      saveConfiguration chk invalidTestConfig fs = (false, invalidTestConfig, none)) :=
  invalid_config_rejected invalidTestConfig
    (Or.inr ⟨0, Or.inl (by simp [invalidTestConfig, MIN_DISTANCE_CM])⟩)

/-- C4: for a frame consumed in RUNNING mode at switch position `sw`, with
`v` the velocity the pipeline computed for that frame, the raw trigger is
set exactly when the frame distance is at or below the selected distance
threshold and either velocity triggering is disabled or `v` lies within the
selected velocity band. -/
theorem raw_trigger_formula (cfg : LidarConfiguration) (sw : Fin 8)
    (p : Core1Pipeline) (frame : LidarFrame) (now : Nat) :
    (processOneFrame cfg sw p frame now).2.raw_trigger = true ↔
      (frame.distance ≤ cfg.distance_thresholds sw ∧
       (cfg.use_velocity_trigger = false ∨
        ((cfg.velocity_min_thresholds sw : ℚ) ≤
            (processOneFrame cfg sw p frame now).2.velocity ∧
         (processOneFrame cfg sw p frame now).2.velocity ≤
            (cfg.velocity_max_thresholds sw : ℚ)))) := by
  cases h : cfg.use_velocity_trigger <;>
    simp [processOneFrame, h, and_assoc]

/-- C6: with six frames queued, one RUNNING-mode pass of
`processIncomingFrames` removes six frames from the queue but processes only
five of them — the sixth is popped by the short-circuit loop condition after
the per-pass cap is reached and is discarded unprocessed, leaving the queue
empty. -/
theorem drain_pops_six_processes_five :
    (runBufOps BufState.init (List.replicate 6 (BufOp.push LidarFrame.zero))).buffer_count
        = 6 ∧
    (processIncomingFrames defaultConfig 0 0
      (runBufOps BufState.init (List.replicate 6 (BufOp.push LidarFrame.zero)))
      Core1Pipeline.init).removed = 6 ∧
    (processIncomingFrames defaultConfig 0 0
      (runBufOps BufState.init (List.replicate 6 (BufOp.push LidarFrame.zero)))
      Core1Pipeline.init).processed = 5 ∧
    (processIncomingFrames defaultConfig 0 0
      (runBufOps BufState.init (List.replicate 6 (BufOp.push LidarFrame.zero)))
      Core1Pipeline.init).buf.buffer_count = 0 :=
  ⟨rfl, rfl, rfl, rfl⟩

/-- C7: with at least five history entries and at least one accepted sample
pair, if more than half of the accepted samples are flagged as small
movements then `calculateVelocity` returns exactly zero, resets its error
counter, clears the velocity error flag, and stores zero as the last known
velocity. -/
theorem majority_small_returns_zero (c : AdaptiveVelocityCalculator) (now : Nat)
    (flag : Bool) (h5 : 5 ≤ c.count)
    (hone : 0 < (collectSamples c).length)
    (hmaj : (collectSamples c).length <
      2 * ((collectSamples c).filter (fun s => s.2)).length) :
    (c.calculateVelocity now flag).velocity = 0 ∧
    (c.calculateVelocity now flag).vcalc.error_count = 0 ∧
    (c.calculateVelocity now flag).error_flag = false ∧
    (c.calculateVelocity now flag).vcalc.last_velocity = 0 := by
  unfold AdaptiveVelocityCalculator.calculateVelocity
  rw [if_neg (by omega)]
  dsimp only
  rw [if_neg (by omega), if_pos (by omega)]
  exact ⟨rfl, rfl, rfl, rfl⟩

/-- Concrete instance of `majority_small_returns_zero` on a stationary
target with two accepted, both-small sample pairs. -/
theorem majority_small_returns_zero_witness :
    (stationaryCalc.calculateVelocity 12345 true).velocity = 0 ∧
    (stationaryCalc.calculateVelocity 12345 true).vcalc.error_count = 0 ∧
    (stationaryCalc.calculateVelocity 12345 true).error_flag = false ∧
    (stationaryCalc.calculateVelocity 12345 true).vcalc.last_velocity = 0 :=
  majority_small_returns_zero stationaryCalc 12345 true (by decide) (by decide) (by decide)

/-- The inner exchange pass keeps the length of the remainder. -/
theorem selectPass_len (x : ℚ) (l : List ℚ) : (selectPass x l).2.length = l.length := by
  induction l generalizing x with
  | nil => rfl
  | cons y ys ih =>
      unfold selectPass
      split_ifs <;> simp [ih]

/-- The inner exchange pass only permutes: held element plus remainder is a
permutation of the input. -/
theorem selectPass_perm (x : ℚ) (l : List ℚ) :
    ((selectPass x l).1 :: (selectPass x l).2).Perm (x :: l) := by
  induction l generalizing x with
  | nil => rfl
  | cons y ys ih =>
      unfold selectPass
      split_ifs
      · dsimp only
        exact (List.Perm.swap x _ _).trans ((ih y).cons x)
      · dsimp only
        exact ((List.Perm.swap y _ _).trans ((ih x).cons y)).trans (List.Perm.swap x y ys)

/-- The held result of the pass is at most the initially held element. -/
theorem selectPass_fst_le (x : ℚ) (l : List ℚ) : (selectPass x l).1 ≤ x := by
  induction l generalizing x with
  | nil => exact le_refl x
  | cons y ys ih =>
      unfold selectPass
      split_ifs with hyx
      · exact le_trans (ih y) (le_of_lt hyx)
      · exact ih x

/-- The held result of the pass is a lower bound of the remainder. -/
theorem selectPass_fst_le_mem (x : ℚ) (l : List ℚ) :
    ∀ z ∈ (selectPass x l).2, (selectPass x l).1 ≤ z := by
  induction l generalizing x with
  | nil => intro z hz; simp [selectPass] at hz
  | cons y ys ih =>
      unfold selectPass
      split_ifs with hyx
      · intro z hz
        dsimp only at hz ⊢
        rcases List.mem_cons.mp hz with hz | hz
        · subst hz
          exact le_trans (selectPass_fst_le y ys) (le_of_lt hyx)
        · exact ih y z hz
      · intro z hz
        dsimp only at hz ⊢
        rcases List.mem_cons.mp hz with hz | hz
        · subst hz
          exact le_trans (selectPass_fst_le x ys) (not_lt.mp hyx)
        · exact ih x z hz

/-- With fuel covering the length, the exchange sort permutes its input into
ascending order. -/
theorem exchangeSortAux_perm_sorted :
    ∀ (n : Nat) (l : List ℚ), l.length = n →
      (exchangeSortAux n l).Perm l ∧ (exchangeSortAux n l).Sorted (· ≤ ·) := by
  intro n
  induction n with
  | zero =>
      intro l hl
      rw [List.eq_nil_of_length_eq_zero hl]
      exact ⟨List.Perm.refl _, List.sorted_nil⟩
  | succ n ih =>
      intro l hl
      cases l with
      | nil => exact ⟨List.Perm.refl _, List.sorted_nil⟩
      | cons x xs =>
          have hlen : (selectPass x xs).2.length = n := by
            rw [selectPass_len]
            simpa using hl
          obtain ⟨hperm, hsorted⟩ := ih _ hlen
          constructor
          · exact (hperm.cons _).trans (selectPass_perm x xs)
          · rw [exchangeSortAux]
            rw [List.sorted_cons]
            exact ⟨fun z hz => selectPass_fst_le_mem x xs z (hperm.mem_iff.mp hz), hsorted⟩

/-- The exchange sort agrees with any ascending sort of the same list. -/
theorem exchangeSort_eq_sorted (vs sorted_vs : List ℚ)
    (hperm : sorted_vs.Perm vs) (hsorted : sorted_vs.Sorted (· ≤ ·)) :
    exchangeSort vs = sorted_vs := by
  obtain ⟨h1, h2⟩ := exchangeSortAux_perm_sorted vs.length vs rfl
  exact List.eq_of_perm_of_sorted (h1.trans hperm.symm) h2 hsorted

/-- C10: when the calculator accepts an even number of samples (two or four)
and takes the median branch, the value it selects is the element at index
`n / 2` of the accepted samples in ascending order — the upper of the two
middle elements, not their mean. -/
theorem even_median_upper_middle (vs sorted_vs : List ℚ)
    (heven : vs.length = 2 ∨ vs.length = 4)
    (hperm : sorted_vs.Perm vs) (hsorted : sorted_vs.Sorted (· ≤ ·)) :
    medianVelocity vs = sorted_vs.getD (vs.length / 2) 0 := by
  have hne : vs.length ≠ 1 := by omega
  unfold medianVelocity
  rw [if_neg hne, exchangeSort_eq_sorted vs sorted_vs hperm hsorted]

/-- Concrete instance of `even_median_upper_middle`: four samples whose
ascending order is 0, 1, 2, 3 give median 2 (index 4 / 2 = 2), not the mean
1.5 of the two middle elements. -/
theorem even_median_upper_middle_witness :
    medianVelocity [3, 1, 2, 0] = ([0, 1, 2, 3] : List ℚ).getD (([3, 1, 2, 0] : List ℚ).length / 2) 0 :=
  even_median_upper_middle [3, 1, 2, 0] [0, 1, 2, 3] (Or.inr (by decide))
    (by decide) (by decide)

/-- C9 (counterexample): starting from two recorded recovery attempts, well
past both the rate limit and the communication timeout, the health monitor
signals a full reinitialization yet leaves the recovery counter at 3 —
it is not reset on the attempt that signals reinitialization, contrary to
the claim. -/
theorem recovery_full_reinit_keeps_counter :
    ((healthMonitorStep defaultRuntimeGlobals false
        { recovery_attempts := 2, last_recovery_attempt := 0,
          buf := BufState.init, serial_pending := [],
          core0_restarted := false, comm_timeout_flag := false,
          last_health_check := 0, last_frame_time := 0 } 10000).2 =
      RecoveryAction.fullReinit) ∧
    ((healthMonitorStep defaultRuntimeGlobals false
        { recovery_attempts := 2, last_recovery_attempt := 0,
          buf := BufState.init, serial_pending := [],
          core0_restarted := false, comm_timeout_flag := false,
          last_health_check := 0, last_frame_time := 0 } 10000).1.core0_restarted =
      true) ∧
    ((healthMonitorStep defaultRuntimeGlobals false
        { recovery_attempts := 2, last_recovery_attempt := 0,
          buf := BufState.init, serial_pending := [],
          core0_restarted := false, comm_timeout_flag := false,
          last_health_check := 0, last_frame_time := 0 } 10000).1.recovery_attempts =
      3) := ⟨rfl, rfl, rfl⟩

/-- Past the rate limit, a buffer-flush recovery call empties the queue,
drains the pending input, increments the counter and records the attempt
time. -/
theorem attemptRecovery_flush (rg : RuntimeGlobals) (s : RecoveryState) (now : Nat)
    (h : ¬ safeMillisElapsed s.last_recovery_attempt now < rg.recovery_attempt_delay_ms) :
    attemptRecovery rg RECOVERY_LEVEL_BUFFER_FLUSH s now =
      (true,
       { s with
         recovery_attempts := s.recovery_attempts + 1
         buf := { s.buf with buffer_head := 0, buffer_tail := 0, buffer_count := 0 }
         serial_pending := []
         last_recovery_attempt := now },
       RecoveryAction.bufferFlush) := by
  unfold attemptRecovery
  rw [if_neg h]
  dsimp only
  rw [if_pos rfl]

/-- Past the rate limit, a soft-reset recovery call increments the counter
and records the attempt time. -/
theorem attemptRecovery_soft (rg : RuntimeGlobals) (s : RecoveryState) (now : Nat)
    (h : ¬ safeMillisElapsed s.last_recovery_attempt now < rg.recovery_attempt_delay_ms) :
    attemptRecovery rg RECOVERY_LEVEL_SOFT_RESET s now =
      (true,
       { s with
         recovery_attempts := s.recovery_attempts + 1
         last_recovery_attempt := now },
       RecoveryAction.softReset) := by
  unfold attemptRecovery
  rw [if_neg h]
  dsimp only
  rw [if_neg (by decide), if_pos rfl]

/-- Past the rate limit with the incremented counter above the maximum, a
full-reinit recovery call resets the counter, takes no action, and reports
failure; the rate-limit stamp is not touched. -/
theorem attemptRecovery_full_over (rg : RuntimeGlobals) (s : RecoveryState) (now : Nat)
    (h : ¬ safeMillisElapsed s.last_recovery_attempt now < rg.recovery_attempt_delay_ms)
    (hover : rg.max_recovery_attempts < s.recovery_attempts + 1) :
    attemptRecovery rg RECOVERY_LEVEL_FULL_REINIT s now =
      (false, { s with recovery_attempts := 0 }, RecoveryAction.idle) := by
  unfold attemptRecovery
  rw [if_neg h]
  dsimp only
  rw [if_neg (by decide), if_neg (by decide), if_pos rfl, if_pos hover]

/-- Past the rate limit with the incremented counter within the maximum, a
full-reinit recovery call reports success with the counter left incremented
and the rate-limit stamp untouched. -/
theorem attemptRecovery_full_under (rg : RuntimeGlobals) (s : RecoveryState) (now : Nat)
    (h : ¬ safeMillisElapsed s.last_recovery_attempt now < rg.recovery_attempt_delay_ms)
    (hunder : s.recovery_attempts + 1 ≤ rg.max_recovery_attempts) :
    attemptRecovery rg RECOVERY_LEVEL_FULL_REINIT s now =
      (true, { s with recovery_attempts := s.recovery_attempts + 1 },
       RecoveryAction.fullReinit) := by
  unfold attemptRecovery
  rw [if_neg h]
  dsimp only
  rw [if_neg (by decide), if_neg (by decide), if_pos rfl, if_neg (by omega)]

/-- C9 (amended): after communication loss beyond 2 s outside configuration
mode, inside a health-check window and with the rate limit satisfied:
attempt count 0 performs a buffer flush (queue emptied, pending input
drained) recording the attempt time; attempt count 1 performs a soft reset
recording the attempt time; attempt count at least 2 first increments the
counter, then either — when the incremented counter exceeds the configured
maximum — resets it to zero without signalling reinitialization (which
bounds the ladder), or — otherwise — signals full reinitialization with the
counter left incremented and the rate-limit stamp unchanged.  Any recovery
call strictly inside the rate-limit window takes no action at all. -/
theorem recovery_ladder (rg : RuntimeGlobals) (s : RecoveryState) (now : Nat)
    (hready : rg.recovery_attempt_delay_ms ≤ safeMillisElapsed s.last_recovery_attempt now)
    (hwin : 5000 < safeMillisElapsed s.last_health_check now)
    (hlost : 2000 < safeMillisElapsed s.last_frame_time now) :
    (s.recovery_attempts = 0 →
      (healthMonitorStep rg false s now).2 = RecoveryAction.bufferFlush ∧
      (healthMonitorStep rg false s now).1.buf.buffer_count = 0 ∧
      (healthMonitorStep rg false s now).1.serial_pending = [] ∧
      (healthMonitorStep rg false s now).1.last_recovery_attempt = now ∧
      (healthMonitorStep rg false s now).1.recovery_attempts = 1) ∧
    (s.recovery_attempts = 1 →
      (healthMonitorStep rg false s now).2 = RecoveryAction.softReset ∧
      (healthMonitorStep rg false s now).1.last_recovery_attempt = now ∧
      (healthMonitorStep rg false s now).1.recovery_attempts = 2) ∧
    (2 ≤ s.recovery_attempts → rg.max_recovery_attempts < s.recovery_attempts + 1 →
      (healthMonitorStep rg false s now).2 = RecoveryAction.idle ∧
      (healthMonitorStep rg false s now).1.core0_restarted = s.core0_restarted ∧
      (healthMonitorStep rg false s now).1.recovery_attempts = 0) ∧
    (2 ≤ s.recovery_attempts → s.recovery_attempts + 1 ≤ rg.max_recovery_attempts →
      (healthMonitorStep rg false s now).2 = RecoveryAction.fullReinit ∧
      (healthMonitorStep rg false s now).1.core0_restarted = true ∧
      (healthMonitorStep rg false s now).1.recovery_attempts = s.recovery_attempts + 1 ∧
      (healthMonitorStep rg false s now).1.last_recovery_attempt =
        s.last_recovery_attempt) ∧
    (∀ level t, safeMillisElapsed s.last_recovery_attempt t < rg.recovery_attempt_delay_ms →
      attemptRecovery rg level s t = (false, s, RecoveryAction.idle)) := by
  have hnot : ¬ safeMillisElapsed s.last_recovery_attempt now <
      rg.recovery_attempt_delay_ms := by omega
  refine ⟨?_, ?_, ?_, ?_, ?_⟩
  · intro h0
    simp [healthMonitorStep, hwin, hlost, h0, attemptRecovery_flush rg s now hnot]
  · intro h1
    simp [healthMonitorStep, hwin, hlost, h1, attemptRecovery_soft rg s now hnot]
  · intro h2 hover
    have h0' : ¬ s.recovery_attempts = 0 := by omega
    have h1' : ¬ s.recovery_attempts = 1 := by omega
    simp [healthMonitorStep, hwin, hlost, h0', h1',
      attemptRecovery_full_over rg s now hnot hover]
  · intro h2 hunder
    have h0' : ¬ s.recovery_attempts = 0 := by omega
    have h1' : ¬ s.recovery_attempts = 1 := by omega
    simp [healthMonitorStep, hwin, hlost, h0', h1',
      attemptRecovery_full_under rg s now hnot hunder]
  · intro level t ht
    simp only [attemptRecovery]
    rw [if_pos ht]

/-- Concrete instance of `recovery_ladder` at the factory defaults with no
prior attempts, 10 s past every stamp. -/
theorem recovery_ladder_witness :
    ((healthMonitorStep defaultRuntimeGlobals false
        { recovery_attempts := 0, last_recovery_attempt := 0,
          buf := BufState.init, serial_pending := [2, 3],
          core0_restarted := false, comm_timeout_flag := false,
          last_health_check := 0, last_frame_time := 0 } 10000).2 =
        RecoveryAction.bufferFlush ∧
      (healthMonitorStep defaultRuntimeGlobals false
        { recovery_attempts := 0, last_recovery_attempt := 0,
          buf := BufState.init, serial_pending := [2, 3],
          core0_restarted := false, comm_timeout_flag := false,
          last_health_check := 0, last_frame_time := 0 } 10000).1.buf.buffer_count = 0 ∧
      (healthMonitorStep defaultRuntimeGlobals false
        { recovery_attempts := 0, last_recovery_attempt := 0,
          buf := BufState.init, serial_pending := [2, 3],
          core0_restarted := false, comm_timeout_flag := false,
          last_health_check := 0, last_frame_time := 0 } 10000).1.serial_pending = [] ∧
      (healthMonitorStep defaultRuntimeGlobals false
        { recovery_attempts := 0, last_recovery_attempt := 0,
          buf := BufState.init, serial_pending := [2, 3],
          core0_restarted := false, comm_timeout_flag := false,
          last_health_check := 0, last_frame_time := 0 } 10000).1.last_recovery_attempt =
        10000 ∧
      (healthMonitorStep defaultRuntimeGlobals false
        { recovery_attempts := 0, last_recovery_attempt := 0,
          buf := BufState.init, serial_pending := [2, 3],
          core0_restarted := false, comm_timeout_flag := false,
          last_health_check := 0, last_frame_time := 0 } 10000).1.recovery_attempts = 1) :=
  (recovery_ladder defaultRuntimeGlobals
    { recovery_attempts := 0, last_recovery_attempt := 0,
      buf := BufState.init, serial_pending := [2, 3],
      core0_restarted := false, comm_timeout_flag := false,
      last_health_check := 0, last_frame_time := 0 } 10000
    (by decide) (by decide) (by decide)).1 rfl

end LidarFW
